import Mathlib

/-
Verification of the FinoAddWise-Backend response-normalization pipeline.

This file gives a shallow embedding of the fallback-aware response
normalization logic of the repository:

  * app/services/rag_service.py
      RAGService.analyze_compliance      (strict parse / fallback dispatch)
      RAGService._parse_fallback_response (regex-based field extraction)
  * app/services/financial_agent.py
      FinancialAgentService.assess_financial_risk
      FinancialAgentService._validate_strategy
      FinancialAgentService._generate_fallback_strategy
      FinancialAgentService._generate_fallback_risk_assessment

Conventions of the embedding:
  * Python scalars are modelled by the type PyVal below; Python int and
    float are both modelled as rationals.  The numeric literals involved
    in the claims (0.5, 0.7, 62.5, 937.5, ...) are exactly representable
    as IEEE doubles, so the rational idealization agrees with the float
    computation at every point a theorem touches.
  * Python dicts are association lists that preserve insertion order;
    assigning to an existing key replaces the value in place, assigning
    to a fresh key appends, exactly as in CPython.
  * Exceptions are modelled explicitly: code regions wrapped in
    try/except are compiled to functions that return the state reached
    when the first exception fires, mirroring the except-branches that
    return the (possibly partially mutated) input.
  * The external LLM call is an external collaborator; the functions
    below take its completion text as the input string, which is exactly
    the boundary at which the repository code starts to operate.
-/

/-- PyVal models the Python values flowing through the pipeline:
None, bool, numbers (int and float, idealized as rationals), strings,
lists and (insertion-ordered) dicts with string keys. -/
inductive PyVal where
  | pnone : PyVal
  | pbool : Bool → PyVal
  | num : ℚ → PyVal
  | str : String → PyVal
  | list : List PyVal → PyVal
  | dict : List (String × PyVal) → PyVal

/-- pyLookup models Python dict read access: first (and only, given the
replace-in-place write discipline) binding of the key wins. -/
def pyLookup : List (String × PyVal) → String → Option PyVal
  | [], _ => none
  | (k2, v) :: rest, k => if k2 = k then some v else pyLookup rest k

/-- pySet models Python dict assignment: replace the value in place when
the key is present, append a new binding otherwise. -/
def pySet : List (String × PyVal) → String → PyVal → List (String × PyVal)
  | [], k, v => [(k, v)]
  | (k2, v2) :: rest, k, v =>
    if k2 = k then (k, v) :: rest else (k2, v2) :: pySet rest k v

/-- pyAttr reads a key out of a PyVal that is a dict; any other shape has
no such attribute. -/
def pyAttr : PyVal → String → Option PyVal
  | .dict kvs, k => pyLookup kvs k
  | _, _ => none

/-- numVal models the values Python treats as numbers in arithmetic and
comparisons: int/float directly, bool as 0 or 1.  Strings, None, lists
and dicts raise TypeError in the arithmetic contexts of this code, which
the embedding renders as none. -/
def numVal : PyVal → Option ℚ
  | .num q => some q
  | .pbool b => some (if b then 1 else 0)
  | _ => none

/-- roundHalfEven models round-half-to-even on a rational, the behavior of
the Python builtin round at representable inputs. -/
def roundHalfEven (x : ℚ) : ℤ :=
  let f := ⌊x⌋
  let r := x - (f : ℚ)
  if r < 1/2 then f
  else if 1/2 < r then f + 1
  else if f % 2 = 0 then f else f + 1

/-- round1 models the Python expression round(x, 1). -/
def round1 (x : ℚ) : ℚ := (roundHalfEven (x * 10) : ℚ) / 10

/-- RiskLevel mirrors the RiskLevel enum of app/models/schemas.py. -/
inductive RiskLevel where
  | conservative : RiskLevel
  | moderate : RiskLevel
  | aggressive : RiskLevel
deriving DecidableEq

/-- RiskLevel.value mirrors the .value attribute of the Python str enum. -/
def RiskLevel.value : RiskLevel → String
  | .conservative => "conservative"
  | .moderate => "moderate"
  | .aggressive => "aggressive"

/-- UserProfile mirrors the UserProfile pydantic model of
app/models/schemas.py.  The optional monthly_expenses defaults to 0, and
the code only ever tests it for truthiness, so None and 0 are identified
here as the value 0. -/
structure UserProfile where
  age : ℕ
  annual_income : ℚ
  investment_experience : String
  risk_tolerance : RiskLevel
  financial_goals : List String
  time_horizon : ℕ
  current_assets : ℚ
  monthly_expenses : ℚ
deriving DecidableEq

/-
Regex models.  RAGService._parse_fallback_response uses three fixed
patterns through the re module:

  re.search(r'compliance_status.*?["\x27](\w+)["\x27]', response, re.IGNORECASE)
  re.search(r'confidence_score.*?(\d+\.?\d*)', response)
  re.findall(r'"([^"]*KW[^"]*)"', response, re.IGNORECASE)   for KW in clause, recommend, risk

The functions below implement the matching semantics of exactly these
patterns: leftmost match, lazy dot that does not cross a newline, greedy
character classes.  The word class is modelled as ASCII alphanumerics
plus underscore (the inputs in this development are all ASCII).
-/

/-- isWordChar models the regex class backslash-w over ASCII text. -/
def isWordChar (c : Char) : Bool := c.isAlphanum || c == '_'

/-- isQuoteChar models the character class of a double or single quote. -/
def isQuoteChar (c : Char) : Bool := c == '"' || c == '\''

/-- literalAt matches a literal at the head of the text (case-sensitive)
and returns the remaining text on success. -/
def literalAt : List Char → List Char → Option (List Char)
  | [], s => some s
  | _ :: _, [] => none
  | l :: ls, c :: cs => if l == c then literalAt ls cs else none

/-- ciLiteralAt matches a literal at the head of the text ignoring case
and returns the remaining text on success. -/
def ciLiteralAt : List Char → List Char → Option (List Char)
  | [], s => some s
  | _ :: _, [] => none
  | l :: ls, c :: cs => if l.toLower == c.toLower then ciLiteralAt ls cs else none

/-- quotedWordTail models the tail pattern quote, word-run, quote reached
through a lazy gap that cannot cross a newline: it scans forward from the
current position, stopping at a newline, and at the first quote followed
by a nonempty word run and another quote it returns that word. -/
def quotedWordTail : List Char → Option String
  | [] => none
  | c :: cs =>
    if c == '\n' then none
    else if isQuoteChar c then
      match cs.dropWhile isWordChar with
      | d :: _ =>
        if decide (cs.takeWhile isWordChar ≠ []) && isQuoteChar d then
          some (String.mk (cs.takeWhile isWordChar))
        else quotedWordTail cs
      | [] => quotedWordTail cs
    else quotedWordTail cs

/-- searchStatus models
re.search with pattern compliance_status, lazy gap, quoted word, under
re.IGNORECASE, returning the captured word of the leftmost match. -/
def searchStatus : List Char → Option String
  | [] => none
  | c :: cs =>
    match ciLiteralAt "compliance_status".data (c :: cs) with
    | some rest =>
      match quotedWordTail rest with
      | some w => some w
      | none => searchStatus cs
    | none => searchStatus cs

/-- digitsToNat reads a run of ASCII digits as a natural number. -/
def digitsToNat (ds : List Char) : ℕ :=
  ds.foldl (fun n c => n * 10 + (c.toNat - 48)) 0

/-- ratOfDigits gives the rational value of an integer digit run followed
by an optional fractional digit run, the value Python float() assigns to
the captured decimal literal. -/
def ratOfDigits (intDs fracDs : List Char) : ℚ :=
  (digitsToNat intDs : ℚ) + (digitsToNat fracDs : ℚ) / ((10 ^ fracDs.length : ℕ) : ℚ)

/-- numberTail models the tail pattern of one or more digits, an optional
dot and further digits, reached through a lazy gap that cannot cross a
newline: it scans forward, stopping at a newline, and parses the decimal
run at the first digit it meets. -/
def numberTail : List Char → Option ℚ
  | [] => none
  | c :: cs =>
    if c == '\n' then none
    else if c.isDigit then
      let s := c :: cs
      match s.dropWhile Char.isDigit with
      | d :: rest2 =>
        if d == '.' then
          some (ratOfDigits (s.takeWhile Char.isDigit) (rest2.takeWhile Char.isDigit))
        else some (ratOfDigits (s.takeWhile Char.isDigit) [])
      | [] => some (ratOfDigits (s.takeWhile Char.isDigit) [])
    else numberTail cs

/-- searchConfidence models
re.search with pattern confidence_score, lazy gap, decimal run (no
IGNORECASE flag on this one), returning the value of the captured decimal
of the leftmost match. -/
def searchConfidence : List Char → Option ℚ
  | [] => none
  | c :: cs =>
    match literalAt "confidence_score".data (c :: cs) with
    | some rest =>
      match numberTail rest with
      | some q => some q
      | none => searchConfidence cs
    | none => searchConfidence cs

/-- splitOnQuote splits the text at every double quote, like the string
split method; n quotes give n+1 parts. -/
def splitOnQuote : List Char → List (List Char)
  | [] => [[]]
  | c :: cs =>
    if c == '"' then [] :: splitOnQuote cs
    else
      match splitOnQuote cs with
      | [] => [[c]]
      | h :: t => (c :: h) :: t

/-- seqAtHead tests whether the first list is a leading segment of the
second. -/
def seqAtHead : List Char → List Char → Bool
  | [], _ => true
  | _ :: _, [] => false
  | k :: ks, c :: cs => k == c && seqAtHead ks cs

/-- containsSeq tests whether the first list occurs as a contiguous
segment of the second. -/
def containsSeq (kw : List Char) : List Char → Bool
  | [] => seqAtHead kw []
  | c :: cs => seqAtHead kw (c :: cs) || containsSeq kw cs

/-- ciContainsSub tests case-insensitive substring containment. -/
def ciContainsSub (kw : List Char) (s : List Char) : Bool :=
  containsSeq (kw.map Char.toLower) (s.map Char.toLower)

/-- scanParts walks the quote-delimited spans of the text in order,
mirroring how re.findall advances over the pattern quote, span containing
the keyword, quote: a span flanked by two quotes that contains the
keyword is captured whole and both its quotes are consumed; otherwise the
closing quote is reconsidered as the next opening quote. -/
def scanParts (kw : List Char) : List (List Char) → List String
  | [] => []
  | [_] => []
  | p :: q :: rest =>
    if ciContainsSub kw p then String.mk p :: scanParts kw rest
    else scanParts kw (q :: rest)

/-- findallContaining models
re.findall with pattern quote, gap containing the keyword with no quote
inside, quote, under re.IGNORECASE, returning all captured spans in
order. -/
def findallContaining (kw : String) (s : List Char) : List String :=
  match splitOnQuote s with
  | [] => []
  | _ :: parts => scanParts kw.data parts

/-
JSON parsing model.  The repository calls the Python standard library
function json.loads on result.strip(); json.loads is an external library
function, modelled here by a straightforward recursive-descent parser of
standard JSON (objects, arrays, strings with the common escapes, decimal
numbers with optional fraction and exponent, true, false, null).  As in
CPython, a JSON object is turned into an insertion-ordered dict where a
duplicate key overwrites the earlier value in place.
-/

/-- jsonWs recognizes the whitespace characters the JSON grammar skips. -/
def jsonWs (c : Char) : Bool := c == ' ' || c == '\t' || c == '\n' || c == '\r'

/-- skipWs drops leading JSON whitespace. -/
def skipWs (s : List Char) : List Char := s.dropWhile jsonWs

/-- pyWs recognizes the ASCII whitespace stripped by the Python string
strip method. -/
def pyWs (c : Char) : Bool :=
  c == ' ' || c == '\t' || c == '\n' || c == '\r' || c == '\x0b' || c == '\x0c'

/-- pyStrip models the Python expression result.strip(). -/
def pyStrip (s : String) : String :=
  String.mk (((s.data.dropWhile pyWs).reverse.dropWhile pyWs).reverse)

/-- parseJsonString parses the body of a JSON string after its opening
quote, handling the common escape sequences, and returns the decoded
string with the remaining text. -/
def parseJsonString : List Char → Option (String × List Char)
  | [] => none
  | '"' :: rest => some ("", rest)
  | '\\' :: e :: rest =>
    let dec : Option Char :=
      if e == '"' then some '"'
      else if e == '\\' then some '\\'
      else if e == '/' then some '/'
      else if e == 'b' then some (Char.ofNat 8)
      else if e == 'f' then some (Char.ofNat 12)
      else if e == 'n' then some '\n'
      else if e == 'r' then some '\r'
      else if e == 't' then some '\t'
      else none
    match dec with
    | none => none
    | some ch =>
      match parseJsonString rest with
      | none => none
      | some (t, r) => some (String.mk (ch :: t.data), r)
  | c :: rest =>
    if c.toNat < 32 then none
    else
      match parseJsonString rest with
      | none => none
      | some (t, r) => some (String.mk (c :: t.data), r)

/-- parseJsonNumber parses a JSON number (optional minus, integer part
with no leading zero, optional fraction, optional exponent) and returns
its exact rational value with the remaining text. -/
def parseJsonNumber (s : List Char) : Option (ℚ × List Char) :=
  let (neg, s1) : Bool × List Char :=
    match s with
    | '-' :: rest => (true, rest)
    | _ => (false, s)
  let intRun := s1.takeWhile Char.isDigit
  let s2 := s1.dropWhile Char.isDigit
  let intOk : Bool :=
    match intRun with
    | [] => false
    | ['0'] => true
    | '0' :: _ :: _ => false
    | _ => true
  if !intOk then none
  else
    let (fracRun, s3) : List Char × List Char :=
      match s2 with
      | '.' :: rest => (rest.takeWhile Char.isDigit, rest.dropWhile Char.isDigit)
      | _ => ([], s2)
    let fracPresent : Bool := match s2 with | '.' :: _ => true | _ => false
    if fracPresent && decide (fracRun = []) then none
    else
      let base : ℚ := ratOfDigits intRun fracRun
      match s3 with
      | 'e' :: rest | 'E' :: rest =>
        let (esign, r1) : Bool × List Char :=
          match rest with
          | '-' :: rr => (true, rr)
          | '+' :: rr => (false, rr)
          | _ => (false, rest)
        let eRun := r1.takeWhile Char.isDigit
        let r2 := r1.dropWhile Char.isDigit
        if decide (eRun = []) then none
        else
          let scale : ℚ := ((10 ^ digitsToNat eRun : ℕ) : ℚ)
          let v := if esign then base / scale else base * scale
          some (if neg then -v else v, r2)
      | _ => some (if neg then -base else base, s3)

mutual

/-- parseJsonVal parses one JSON value; the fuel argument bounds the
nesting depth and is always supplied large enough that it never runs
out on an input the parser accepts. -/
def parseJsonVal : ℕ → List Char → Option (PyVal × List Char)
  | 0, _ => none
  | Nat.succ fuel, s =>
    match skipWs s with
    | [] => none
    | c :: cs =>
      if c == '"' then
        match parseJsonString cs with
        | none => none
        | some (t, rest) => some (.str t, rest)
      else if c == 't' then
        match literalAt "rue".data cs with
        | none => none
        | some rest => some (.pbool true, rest)
      else if c == 'f' then
        match literalAt "alse".data cs with
        | none => none
        | some rest => some (.pbool false, rest)
      else if c == 'n' then
        match literalAt "ull".data cs with
        | none => none
        | some rest => some (.pnone, rest)
      else if c == '[' then
        match skipWs cs with
        | ']' :: rest => some (.list [], rest)
        | _ => match parseJsonItems fuel cs with
          | none => none
          | some (vs, rest) => some (.list vs, rest)
      else if c == '{' then
        match skipWs cs with
        | '}' :: rest => some (.dict [], rest)
        | _ => match parseJsonMembers fuel cs with
          | none => none
          | some (kvs, rest) =>
            some (.dict (kvs.foldl (fun d kv => pySet d kv.1 kv.2) []), rest)
      else
        match parseJsonNumber (c :: cs) with
        | none => none
        | some (q, rest) => some (.num q, rest)

/-- parseJsonItems parses the comma-separated values of a nonempty JSON
array up to and including the closing bracket. -/
def parseJsonItems : ℕ → List Char → Option (List PyVal × List Char)
  | 0, _ => none
  | Nat.succ fuel, s =>
    match parseJsonVal fuel s with
    | none => none
    | some (v, r1) =>
      match skipWs r1 with
      | ',' :: r2 =>
        match parseJsonItems fuel r2 with
        | none => none
        | some (vs, rest) => some (v :: vs, rest)
      | ']' :: r2 => some ([v], r2)
      | _ => none

/-- parseJsonMembers parses the comma-separated key-value pairs of a
nonempty JSON object up to and including the closing brace. -/
def parseJsonMembers : ℕ → List Char → Option (List (String × PyVal) × List Char)
  | 0, _ => none
  | Nat.succ fuel, s =>
    match skipWs s with
    | '"' :: r1 =>
      match parseJsonString r1 with
      | none => none
      | some (k, r2) =>
        match skipWs r2 with
        | ':' :: r3 =>
          match parseJsonVal fuel r3 with
          | none => none
          | some (v, r4) =>
            match skipWs r4 with
            | ',' :: r5 =>
              match parseJsonMembers fuel r5 with
              | none => none
              | some (kvs, rest) => some ((k, v) :: kvs, rest)
            | '}' :: r5 => some ([(k, v)], r5)
            | _ => none
        | _ => none
    | _ => none

end

/-- jsonLoads models the Python call json.loads(s): parse exactly one
JSON value surrounded by optional whitespace, failing on anything else. -/
def jsonLoads (s : String) : Option PyVal :=
  match parseJsonVal (2 * s.length + 2) s.data with
  | some (v, rest) => if skipWs rest = [] then some v else none
  | none => none

/-
RAGService (app/services/rag_service.py).
-/

/-- extractedConfidence models lines 213 and 214 of rag_service.py: the
float value of the first confidence_score decimal found in the response,
or the default 0.5 when the pattern does not match. -/
def extractedConfidence (response : String) : ℚ :=
  match searchConfidence response.data with
  | some q => q
  | none => 1/2

/-- extractedStatus models lines 209 and 210 of rag_service.py: the first
quoted word found after compliance_status, or the default needs_review
when the pattern does not match. -/
def extractedStatus (response : String) : String :=
  match searchStatus response.data with
  | some w => w
  | none => "needs_review"

/-- strList packs extracted strings as a Python list value. -/
def strList (xs : List String) : PyVal := .list (xs.map .str)

/-- parse_fallback_response models RAGService._parse_fallback_response
(rag_service.py lines 197 to 236).  The body of its try block cannot
raise (the captured decimal always converts to a float), so the except
branch that would return the hard defaults is unreachable and is not
modelled. -/
def parse_fallback_response (response : String) : List (String × PyVal) :=
  [("compliance_status", .str (extractedStatus response)),
   ("confidence_score", .num (min (extractedConfidence response) 1)),
   ("flagged_clauses", strList ((findallContaining "clause" response.data).take 5)),
   ("recommendations", strList ((findallContaining "recommend" response.data).take 5)),
   ("risk_factors", strList ((findallContaining "risk" response.data).take 5))]

/-- analyze_compliance models the normalization core of
RAGService.analyze_compliance (rag_service.py lines 177 to 185): the
input is the completion text returned by the external LLM collaborator;
a strict JSON parse of the stripped text is returned verbatim on
success, and the pattern-based fallback runs on failure. -/
def analyze_compliance (llmResult : String) : PyVal :=
  match jsonLoads (pyStrip llmResult) with
  | some j => j
  | none => .dict (parse_fallback_response llmResult)

/-- analyze_compliance_error_default models the dict returned by the
outer except branch of RAGService.analyze_compliance (rag_service.py
lines 187 to 195), reached when an external collaborator call fails. -/
def analyze_compliance_error_default : PyVal :=
  .dict
    [("compliance_status", .str "needs_review"),
     ("confidence_score", .num 0),
     ("flagged_clauses", .list []),
     ("recommendations", .list [.str "Manual review required due to analysis error"]),
     ("risk_factors", .list [.str "Analysis system error"])]

/-
FinancialAgentService (app/services/financial_agent.py).
-/

/-- generate_fallback_risk_assessment models
FinancialAgentService._generate_fallback_risk_assessment
(financial_agent.py lines 355 to 372). -/
def generate_fallback_risk_assessment : List (String × PyVal) :=
  [("overall_risk_score", .num (1/2)),
   ("risk_level", .str "moderate"),
   ("risk_factors", .list
      [.dict
        [("factor_name", .str "Market Volatility"),
         ("severity", .str "medium"),
         ("impact_score", .num (6/10)),
         ("mitigation_strategies", .list
            [.str "Diversification", .str "Dollar-cost averaging"])]]),
   ("recommendations", .list
      [.str "Maintain diversified portfolio", .str "Regular risk assessment"]),
   ("confidence_score", .num (7/10))]

/-- assess_financial_risk models the normalization core of
FinancialAgentService.assess_financial_risk (financial_agent.py lines
235 to 247): financial_data only feeds the prompt of the external LLM
call, whose completion text is the llmResult input; a strict JSON parse
of the stripped text is returned verbatim on success, and the fixed
fallback assessment is returned on failure.  There is no pattern-based
extraction on this path. -/
def assess_financial_risk (financial_data : PyVal) (llmResult : String) : PyVal :=
  match jsonLoads (pyStrip llmResult) with
  | some j => j
  | none => .dict generate_fallback_risk_assessment

/-- recAllocValue models the expression
rec.get("allocation_percentage", 0) followed by its use as a number in
the running sum: a non-dict rec or a non-numeric value raises, rendered
as none. -/
def recAllocValue : PyVal → Option ℚ
  | .dict kvs =>
    match pyLookup kvs "allocation_percentage" with
    | none => some 0
    | some v => numVal v
  | _ => none

/-- sumAllocations models the expression
sum(rec.get("allocation_percentage", 0) for rec in recs) over the items
of the investment_recommendations value (financial_agent.py lines 272 to
275); any TypeError or AttributeError along the way is rendered as none. -/
def sumAllocations : List PyVal → Option ℚ
  | [] => some 0
  | r :: rs =>
    match recAllocValue r with
    | none => none
    | some q =>
      match sumAllocations rs with
      | none => none
      | some s => some (q + s)

/-- scaleRecs models the loop
for rec in recs: rec["allocation_percentage"] *= factor
(financial_agent.py lines 281 to 282).  The mutation happens in order;
when an item is missing the key (KeyError) or holds a non-numeric value
(TypeError) the loop stops there, and the items already processed keep
their scaled values: the Bool result records whether the loop completed
without raising. -/
def scaleRecs (factor : ℚ) : List PyVal → List PyVal × Bool
  | [] => ([], true)
  | r :: rs =>
    match r with
    | .dict kvs =>
      match pyLookup kvs "allocation_percentage" with
      | some v =>
        match numVal v with
        | some q =>
          let r2 := PyVal.dict (pySet kvs "allocation_percentage" (.num (q * factor)))
          let (rs2, ok) := scaleRecs factor rs
          (r2 :: rs2, ok)
        | none => (r :: rs, false)
      | none => (r :: rs, false)
    | _ => (r :: rs, false)

/-- validate_stage1 models the allocation-total section of
FinancialAgentService._validate_strategy (financial_agent.py lines 270
to 282): when investment_recommendations is present, sum the allocation
percentages; when the total is off by more than the 1.0 tolerance, scale
every percentage by 100/total (by 1.0 when the total is not positive).
The Bool result records whether this section ran without raising; on
false the enclosing except branch returns the state reached so far. -/
def validate_stage1 (strategy : List (String × PyVal)) :
    List (String × PyVal) × Bool :=
  match pyLookup strategy "investment_recommendations" with
  | none => (strategy, true)
  | some v =>
    match v with
    | .list recs =>
      match sumAllocations recs with
      | none => (strategy, false)
      | some total =>
        if 1 < |total - 100| then
          let factor := if 0 < total then 100 / total else 1
          let (recs2, ok) := scaleRecs factor recs
          (pySet strategy "investment_recommendations" (.list recs2), ok)
        else (strategy, true)
    | _ => (strategy, false)

/-- validate_stage2 models the emergency-fund section of
FinancialAgentService._validate_strategy (financial_agent.py lines 284
to 293): when monthly expenses are truthy, clamp
emergency_fund_target into the closed interval from 3 to 12 times the
monthly expenses; a non-numeric target raises in the comparison and the
except branch returns the state reached so far. -/
def validate_stage2 (s1 : List (String × PyVal)) (monthly_expenses : ℚ) :
    List (String × PyVal) :=
  if monthly_expenses ≠ 0 then
    let minE := monthly_expenses * 3
    let maxE := monthly_expenses * 12
    let target : Option ℚ :=
      match pyLookup s1 "emergency_fund_target" with
      | none => some 0
      | some v => numVal v
    match target with
    | none => s1
    | some t =>
      if t < minE then pySet s1 "emergency_fund_target" (.num minE)
      else if maxE < t then pySet s1 "emergency_fund_target" (.num maxE)
      else s1
  else s1

/-- validate_strategy models FinancialAgentService._validate_strategy
(financial_agent.py lines 264 to 299) on a strategy dict: the two
sections run inside one try block, so a failure in the first section
skips the second and the except branch returns the strategy in the state
the failure left it. -/
def validate_strategy (strategy : List (String × PyVal)) (monthly_expenses : ℚ) :
    List (String × PyVal) :=
  match validate_stage1 strategy with
  | (s1, false) => s1
  | (s1, true) => validate_stage2 s1 monthly_expenses

/-- generate_fallback_strategy models
FinancialAgentService._generate_fallback_strategy (financial_agent.py
lines 301 to 353).  Age arithmetic is integer arithmetic in the source;
the normalization divides in float.  The 0.15 savings rate is written as
15/100: at every input this file evaluates it on, the float computation
of the source lands on the same representable value. -/
def generate_fallback_strategy (p : UserProfile) : List (String × PyVal) :=
  let age : ℚ := (p.age : ℚ)
  let stockAlloc : ℚ :=
    match p.risk_tolerance with
    | .conservative => max 30 (100 - age)
    | .aggressive => min 90 (120 - age)
    | .moderate => max 40 (110 - age)
  let bondAlloc : ℚ :=
    match p.risk_tolerance with
    | .conservative => min 70 (age + 20)
    | .aggressive => max 10 (age - 20)
    | .moderate => min 60 (age + 10)
  let total := stockAlloc + bondAlloc
  let stockNorm := stockAlloc / total * 100
  let bondNorm := bondAlloc / total * 100
  [("strategy_summary", .str ("Balanced " ++ p.risk_tolerance.value
      ++ " strategy appropriate for age " ++ toString p.age)),
   ("investment_recommendations", .list
      [.dict
        [("asset_class", .str "Stocks"),
         ("allocation_percentage", .num (round1 stockNorm)),
         ("rationale", .str "Growth potential appropriate for age and risk tolerance"),
         ("risk_level", .str p.risk_tolerance.value)],
       .dict
        [("asset_class", .str "Bonds"),
         ("allocation_percentage", .num (round1 bondNorm)),
         ("rationale", .str "Stability and income generation"),
         ("risk_level", .str "conservative")]]),
   ("monthly_savings_target", .num (p.annual_income * (15/100) / 12)),
   ("emergency_fund_target", .num
      ((if p.monthly_expenses = 0 then 3000 else p.monthly_expenses) * 6)),
   ("key_actions", .list
      [.str "Open investment accounts if not already done",
       .str "Set up automatic monthly contributions",
       .str "Review and rebalance quarterly"]),
   ("risk_warnings", .list
      [.str "Market volatility can affect portfolio value",
       .str "Past performance doesn\x27t guarantee future results"]),
   ("review_timeline", .str "Review annually or when life circumstances change")]

/-
Helper definitions used to state the properties.
-/

/-- requiredComplianceKeys lists the mandatory keys of a compliance
analysis result (app/models/schemas.py, DocumentAnalysisResponse). -/
def requiredComplianceKeys : List String :=
  ["compliance_status", "confidence_score", "flagged_clauses",
   "recommendations", "risk_factors"]

/-- hasRequiredKeys tests that a value is a mapping carrying every
mandatory compliance key. -/
def hasRequiredKeys : PyVal → Bool
  | .dict kvs => requiredComplianceKeys.all (fun k => (pyLookup kvs k).isSome)
  | _ => false

/-- complianceEnum lists the values of the ComplianceStatus enum
(app/models/schemas.py lines 14 to 20). -/
def complianceEnum : List String := ["compliant", "non_compliant", "needs_review"]

/-- mkRec builds a recommendation dict holding one allocation
percentage. -/
def mkRec (p : ℚ) : PyVal := .dict [("allocation_percentage", .num p)]

/-- mkStrategy builds a strategy dict holding a list of allocation
recommendations. -/
def mkStrategy (ps : List ℚ) : List (String × PyVal) :=
  [("investment_recommendations", .list (ps.map mkRec))]

/-- allocOf reads the allocation percentage of one recommendation. -/
def allocOf : PyVal → Option ℚ
  | .dict kvs =>
    match pyLookup kvs "allocation_percentage" with
    | some (.num q) => some q
    | _ => none
  | _ => none

/-- allocsOfRecs reads the allocation percentage of every recommendation
in order, failing when any of them has none. -/
def allocsOfRecs : List PyVal → Option (List ℚ)
  | [] => some []
  | r :: rs =>
    match allocOf r with
    | none => none
    | some q =>
      match allocsOfRecs rs with
      | none => none
      | some qs => some (q :: qs)

/-- getAllocs reads the sequence of allocation percentages back out of a
strategy dict. -/
def getAllocs (s : List (String × PyVal)) : Option (List ℚ) :=
  match pyLookup s "investment_recommendations" with
  | some (.list recs) => allocsOfRecs recs
  | _ => none

/-- eraseAlloc removes the allocation_percentage binding from a
recommendation dict (and leaves any other value unchanged); two
recommendations with the same eraseAlloc image agree on every other
key. -/
def eraseAlloc : PyVal → PyVal
  | .dict kvs => .dict (kvs.filter (fun kv => !(kv.1 == "allocation_percentage")))
  | v => v

/-- fullStrategy builds a strategy dict of the shape the strategy prompt
requests, with the allocation percentages and the emergency fund target
explicit and every other field arbitrary. -/
def fullStrategy (summary : PyVal) (ps : List ℚ) (savings : PyVal) (t : ℚ)
    (actions warnings timeline : PyVal) : List (String × PyVal) :=
  [("strategy_summary", summary),
   ("investment_recommendations", .list (ps.map mkRec)),
   ("monthly_savings_target", savings),
   ("emergency_fund_target", .num t),
   ("key_actions", actions),
   ("risk_warnings", warnings),
   ("review_timeline", timeline)]

/-- profile35 is the profile of the fallback-determinism scenario: age
35, moderate risk, annual income 75000, monthly expenses 4000. -/
def profile35 : UserProfile :=
  { age := 35
    annual_income := 75000
    investment_experience := "intermediate"
    risk_tolerance := .moderate
    financial_goals := ["retirement"]
    time_horizon := 20
    current_assets := 0
    monthly_expenses := 4000 }

/-- scenarioRiskText is the malformed completion of the risk-assessment
scenario in the specification. -/
def scenarioRiskText : String :=
  "Sure! Here\x27s my analysis: risk_level is moderate, confidence_score around 0.8..."

/-- firstAlloc projects the allocation percentage of the first
recommendation out of a strategy dict. -/
def firstAlloc (s : List (String × PyVal)) : Option ℚ :=
  match pyLookup s "investment_recommendations" with
  | some (.list (r :: _)) => allocOf r
  | _ => none

/-- strategyWithGap is a strategy mapping whose second recommendation is
missing the allocation_percentage key: summing treats it as 0, but the
rescaling loop raises KeyError on it after the first recommendation has
already been rescaled. -/
def strategyWithGap : List (String × PyVal) :=
  [("strategy_summary", .str "keep"),
   ("investment_recommendations", .list
     [.dict [("allocation_percentage", .num 50)],
      .dict [("asset_class", .str "Bonds")]])]

/-- bananaText is a completion that is not valid JSON and carries a
quoted word after compliance_status that lies outside the
ComplianceStatus enum. -/
def bananaText : String := "compliance_status is \"banana\""

/-
Supporting lemmas.
-/

/-- pyLookup after pySet at the same key reads the written value. -/
theorem pyLookup_pySet_self (kvs : List (String × PyVal)) (k : String) (v : PyVal) :
    pyLookup (pySet kvs k v) k = some v := by
  induction kvs with
  | nil => simp [pySet, pyLookup]
  | cons kv rest ih =>
    obtain ⟨k2, v2⟩ := kv
    by_cases hk : k2 = k
    · simp [pySet, pyLookup, hk]
    · simp [pySet, pyLookup, hk, ih]

/-- pyLookup after pySet at a different key is unchanged. -/
theorem pyLookup_pySet_ne (kvs : List (String × PyVal)) (k q : String) (v : PyVal)
    (h : q ≠ k) : pyLookup (pySet kvs k v) q = pyLookup kvs q := by
  induction kvs with
  | nil => simp [pySet, pyLookup, Ne.symm h]
  | cons kv rest ih =>
    obtain ⟨k2, v2⟩ := kv
    by_cases hk : k2 = k
    · subst hk
      simp [pySet, pyLookup, Ne.symm h]
    · simp [pySet, pyLookup, hk, ih]

/-- summing the allocation percentages of recommendation dicts built by
mkRec gives the sum of the list. -/
theorem sumAllocations_map (ps : List ℚ) :
    sumAllocations (ps.map mkRec) = some ps.sum := by
  induction ps with
  | nil => simp [sumAllocations]
  | cons p rest ih =>
    simp [sumAllocations, mkRec, recAllocValue, pyLookup, numVal, ih]

/-- scaling recommendation dicts built by mkRec multiplies every
percentage by the factor and completes without raising. -/
theorem scaleRecs_map (f : ℚ) (ps : List ℚ) :
    scaleRecs f (ps.map mkRec) = (ps.map fun p => mkRec (p * f), true) := by
  induction ps with
  | nil => simp [scaleRecs]
  | cons p rest ih =>
    simp [scaleRecs, mkRec, pyLookup, numVal, pySet, ih]

/-- reading the allocation percentages back out of recommendation dicts
built by mkRec recovers the list. -/
theorem allocsOfRecs_map (ps : List ℚ) :
    allocsOfRecs (ps.map mkRec) = some ps := by
  induction ps with
  | nil => rfl
  | cons p rest ih =>
    simp [allocsOfRecs, mkRec, allocOf, pyLookup, ih]

/-- the sum of a list with every element multiplied by a constant is the
sum multiplied by that constant. -/
theorem sum_map_mul_const (ps : List ℚ) (f : ℚ) :
    (ps.map fun p => p * f).sum = ps.sum * f := by
  induction ps with
  | nil => simp
  | cons p rest ih => simp [ih, add_mul]

/-- filtering out a key is invariant under writing that key. -/
theorem filter_pySet (kvs : List (String × PyVal)) (k : String) (v : PyVal) :
    (pySet kvs k v).filter (fun kv => !(kv.1 == k))
      = kvs.filter (fun kv => !(kv.1 == k)) := by
  induction kvs with
  | nil => simp [pySet]
  | cons kv rest ih =>
    obtain ⟨k2, v2⟩ := kv
    by_cases hk : k2 = k
    · subst hk
      simp [pySet]
    · simp [pySet, hk, ih]

/-- the rescaling loop changes nothing but allocation_percentage
bindings, whether or not it completes. -/
theorem scaleRecs_eraseAlloc (f : ℚ) (recs : List PyVal) :
    ((scaleRecs f recs).1).map eraseAlloc = recs.map eraseAlloc := by
  induction recs with
  | nil => rfl
  | cons r rest ih =>
    cases r with
    | dict kvs =>
      simp only [scaleRecs]
      cases hl : pyLookup kvs "allocation_percentage" with
      | none => simp
      | some v =>
        cases hn : numVal v with
        | none => simp [hn]
        | some q =>
          simp only [hn, List.map_cons]
          rw [ih]
          congr 1
          simp [eraseAlloc, filter_pySet]
    | pnone => rfl
    | pbool b => rfl
    | num q => rfl
    | str s => rfl
    | list xs => rfl

/-- the first validation section only ever writes the
investment_recommendations key. -/
theorem validate_stage1_lookup_ne (s : List (String × PyVal)) (q : String)
    (h : q ≠ "investment_recommendations") :
    pyLookup (validate_stage1 s).1 q = pyLookup s q := by
  unfold validate_stage1
  cases hl : pyLookup s "investment_recommendations" with
  | none => rfl
  | some v =>
    cases v with
    | list recs =>
      cases hs : sumAllocations recs with
      | none => simp [hs]
      | some total =>
        by_cases hif : 1 < |total - 100|
        · simp [hs, hif, pyLookup_pySet_ne _ _ _ _ h]
        · simp [hs, hif]
    | pnone => rfl
    | pbool b => rfl
    | num q2 => rfl
    | str s2 => rfl
    | dict kvs => rfl

/-- the second validation section only ever writes the
emergency_fund_target key. -/
theorem validate_stage2_lookup_ne (s1 : List (String × PyVal)) (E : ℚ) (q : String)
    (h : q ≠ "emergency_fund_target") :
    pyLookup (validate_stage2 s1 E) q = pyLookup s1 q := by
  unfold validate_stage2
  by_cases hE : E = 0
  · simp [hE]
  · simp only [ne_eq, hE, not_false_eq_true, if_true]
    cases hl : pyLookup s1 "emergency_fund_target" with
    | none =>
      simp only [hl]
      by_cases h1 : (0 : ℚ) < E * 3
      · simp [h1, pyLookup_pySet_ne _ _ _ _ h]
      · by_cases h2 : E * 12 < 0
        · simp [h1, h2, pyLookup_pySet_ne _ _ _ _ h]
        · simp [h1, h2]
    | some v =>
      cases hn : numVal v with
      | none => simp [hl, hn]
      | some t =>
        by_cases h1 : t < E * 3
        · simp [hl, hn, h1, pyLookup_pySet_ne _ _ _ _ h]
        · by_cases h2 : E * 12 < t
          · simp [hl, hn, h1, h2, pyLookup_pySet_ne _ _ _ _ h]
          · simp [hl, hn, h1, h2]

/-- whatever happens in the first validation section, the
investment_recommendations value stays a list whose items agree with the
input items on every key other than allocation_percentage. -/
theorem validate_stage1_recs (s : List (String × PyVal)) (recs : List PyVal)
    (h : pyLookup s "investment_recommendations" = some (.list recs)) :
    ∃ recs2 : List PyVal,
      pyLookup (validate_stage1 s).1 "investment_recommendations" = some (.list recs2) ∧
      recs2.map eraseAlloc = recs.map eraseAlloc := by
  unfold validate_stage1
  rw [h]
  cases hs : sumAllocations recs with
  | none => exact ⟨recs, by simp [hs, h], rfl⟩
  | some total =>
    by_cases hif : 1 < |total - 100|
    · refine ⟨(scaleRecs (if 0 < total then 100 / total else 1) recs).1, ?_, ?_⟩
      · simp [hs, hif, pyLookup_pySet_self]
      · exact scaleRecs_eraseAlloc _ recs
    · exact ⟨recs, by simp [hs, hif, h], rfl⟩

/-- the rational value of a captured decimal run is nonnegative. -/
theorem ratOfDigits_nonneg (a b : List Char) : 0 ≤ ratOfDigits a b := by
  unfold ratOfDigits
  positivity

/-- any decimal the number-tail scan captures is nonnegative. -/
theorem numberTail_nonneg (s : List Char) (q : ℚ) (h : numberTail s = some q) :
    0 ≤ q := by
  induction s with
  | nil => simp [numberTail] at h
  | cons c cs ih =>
    simp only [numberTail] at h
    by_cases h1 : c == '\n'
    · simp [h1] at h
    · by_cases h2 : c.isDigit
      · simp only [h1, h2, if_false, if_true, Bool.false_eq_true] at h
        rcases hd : List.dropWhile Char.isDigit (c :: cs) with _ | ⟨d, rest⟩ <;>
          rw [hd] at h
        · simp only [Option.some.injEq] at h
          exact h ▸ ratOfDigits_nonneg _ _
        · by_cases hdot : d == '.'
          · simp only [hdot, if_true, Option.some.injEq] at h
            exact h ▸ ratOfDigits_nonneg _ _
          · simp only [hdot, Bool.false_eq_true, if_false, Option.some.injEq] at h
            exact h ▸ ratOfDigits_nonneg _ _
      · simp only [h1, h2, if_false, Bool.false_eq_true] at h
        exact ih h

/-- any confidence value the scan extracts is nonnegative: the decimal
pattern cannot capture a minus sign. -/
theorem searchConfidence_nonneg (s : List Char) (q : ℚ)
    (h : searchConfidence s = some q) : 0 ≤ q := by
  induction s with
  | nil => simp [searchConfidence] at h
  | cons c cs ih =>
    simp only [searchConfidence] at h
    split at h
    · split at h
      · have h0 := numberTail_nonneg _ _ (by assumption)
        exact (Option.some.inj h) ▸ h0
      · exact ih h
    · exact ih h

/-- the extracted confidence (pattern value or 0.5 default) is
nonnegative. -/
theorem extractedConfidence_nonneg (text : String) :
    0 ≤ extractedConfidence text := by
  unfold extractedConfidence
  cases hc : searchConfidence text.data with
  | none => norm_num
  | some q => exact searchConfidence_nonneg _ _ hc

/-
Claim C1.
-/

/-- C1 counterexample: the raw input text that is the valid JSON object
with the single key title is parsed strictly by the compliance pipeline
and returned verbatim, so the produced mapping is missing every required
key — refuting the claim that the pipeline returns a mapping with every
required key present for every raw input text. -/
theorem c1_strict_json_missing_keys :
    hasRequiredKeys (analyze_compliance "\x7b\"title\": 1\x7d") = false := by
  rfl

/-- C1 (amended): the compliance pipeline is a total function of the raw
input text, and whenever the strict JSON parse of the stripped text
fails (empty string, non-JSON garbage, truncated JSON) the result is a
mapping in which every required key (compliance_status,
confidence_score, flagged_clauses, recommendations, risk_factors) is
present with a default or extracted value. -/
theorem c1_fallback_has_required_keys (text : String)
    (h : jsonLoads (pyStrip text) = none) :
    hasRequiredKeys (analyze_compliance text) = true := by
  simp [analyze_compliance, h, parse_fallback_response, hasRequiredKeys,
        requiredComplianceKeys, pyLookup, List.all]

/-- C1 witness: the empty string fails the strict parse and its
compliance result carries every required key. -/
theorem c1_fallback_has_required_keys_w :
    hasRequiredKeys (analyze_compliance "") = true :=
  c1_fallback_has_required_keys "" rfl

/-
Claim C2.
-/


/-- C2 counterexample: the single positive allocation 99.5 sums to 99.5,
within the 1.0 source tolerance, so the validator leaves it unchanged
and the output total misses 100.0 by 0.5 — refuting the claimed 1e-6
closeness for every nonempty positive input. -/
theorem c2_tolerance_cex :
    getAllocs (validate_strategy (mkStrategy [199/2]) 0) = some [199/2] ∧
    ¬ |([(199 : ℚ)/2]).sum - 100| ≤ 1/1000000 := by
  have habs : |([(199 : ℚ)/2]).sum - 100| = 1/2 := by
    have h0 : ([(199 : ℚ)/2]).sum - 100 = -(1/2) := by
      simp [List.sum_cons, List.sum_nil]
      norm_num
    rw [h0, abs_neg, abs_of_nonneg]
    norm_num
  constructor
  · have hst : validate_stage1 (mkStrategy [199/2]) = (mkStrategy [199/2], true) := by
      unfold validate_stage1
      rw [show pyLookup (mkStrategy [199/2]) "investment_recommendations"
            = some (.list ([(199 : ℚ)/2].map mkRec)) from rfl]
      simp only [sumAllocations_map, habs]
      norm_num
    unfold validate_strategy
    rw [hst]
    unfold validate_stage2
    simp [getAllocs, mkStrategy, pyLookup, allocsOfRecs, allocOf, mkRec]
  · rw [habs]
    norm_num

/-- C2 (amended): for every nonempty sequence of positive allocation
percentages, the validator returns the sequence scaled elementwise by
one common positive factor (all input ratios preserved); the output
total is within 1.0 of 100, and is exactly 100 whenever the input total
was off by more than the 1.0 tolerance (the factor is 1 otherwise). -/
theorem c2_renormalization (ps : List ℚ) (E : ℚ) (h1 : ps ≠ [])
    (h2 : ∀ p ∈ ps, 0 < p) :
    ∃ f : ℚ, 0 < f ∧
      getAllocs (validate_strategy (mkStrategy ps) E) = some (ps.map fun p => p * f) ∧
      |(ps.map fun p => p * f).sum - 100| ≤ 1 ∧
      (1 < |ps.sum - 100| → (ps.map fun p => p * f).sum = 100) := by
  have hsum : 0 < ps.sum := List.sum_pos ps h2 h1
  have hlk : pyLookup (mkStrategy ps) "investment_recommendations"
      = some (.list (ps.map mkRec)) := rfl
  by_cases hif : 1 < |ps.sum - 100|
  · have hfac : (if 0 < ps.sum then (100 : ℚ) / ps.sum else 1) = 100 / ps.sum :=
      if_pos hsum
    have hrecs : (ps.map fun p => mkRec (p * (100 / ps.sum)))
        = ((ps.map fun p => p * (100 / ps.sum)).map mkRec) := by
      rw [List.map_map]
      rfl
    have hst : validate_stage1 (mkStrategy ps)
        = (pySet (mkStrategy ps) "investment_recommendations"
            (.list (ps.map fun p => mkRec (p * (100 / ps.sum)))), true) := by
      unfold validate_stage1
      rw [hlk]
      simp [sumAllocations_map, hif, hfac, scaleRecs_map]
    have hsum100 : (ps.map fun p => p * (100 / ps.sum)).sum = 100 := by
      rw [sum_map_mul_const]
      field_simp
    refine ⟨100 / ps.sum, div_pos (by norm_num) hsum, ?_, ?_, fun _ => hsum100⟩
    · unfold validate_strategy
      rw [hst]
      simp only [getAllocs,
        validate_stage2_lookup_ne _ E "investment_recommendations" (by decide),
        pyLookup_pySet_self]
      rw [hrecs, allocsOfRecs_map]
    · rw [hsum100]
      norm_num
  · have hst : validate_stage1 (mkStrategy ps) = (mkStrategy ps, true) := by
      unfold validate_stage1
      rw [hlk]
      simp [sumAllocations_map, hif]
    refine ⟨1, one_pos, ?_, ?_, fun hcontr => absurd hcontr hif⟩
    · unfold validate_strategy
      rw [hst]
      simp only [getAllocs,
        validate_stage2_lookup_ne _ E "investment_recommendations" (by decide),
        hlk, allocsOfRecs_map]
      simp
    · simp only [mul_one, List.map_id']
      simpa using not_lt.mp hif

/-- C2 witness: the positive sequence 50, 25 is off by more than the
tolerance, and the validator rescales it by a common positive factor so
that the output total lands within the bound. -/
theorem c2_renormalization_w :
    ∃ f : ℚ, 0 < f ∧
      getAllocs (validate_strategy (mkStrategy [50, 25]) 0)
        = some ([(50 : ℚ), 25].map fun p => p * f) ∧
      |(([(50 : ℚ), 25]).map fun p => p * f).sum - 100| ≤ 1 ∧
      (1 < |([(50 : ℚ), 25]).sum - 100| → (([(50 : ℚ), 25]).map fun p => p * f).sum = 100) :=
  c2_renormalization [50, 25] 0 (by simp) (by norm_num)

/-
Claim C3.
-/

/-- C3: the validator is the identity on every strategy entity that
already satisfies the invariants — allocation percentages summing to
100 within the 1.0 tolerance, and an emergency-fund target within 3 to
12 times the monthly expenses (when expenses are known; with unknown
expenses the bound section is skipped and the entity is likewise
returned unchanged). -/
theorem c3_validator_idempotent (summary savings actions warnings timeline : PyVal)
    (ps : List ℚ) (t E : ℚ)
    (halloc : |ps.sum - 100| ≤ 1)
    (hfund : E = 0 ∨ (E * 3 ≤ t ∧ t ≤ E * 12)) :
    validate_strategy (fullStrategy summary ps savings t actions warnings timeline) E
      = fullStrategy summary ps savings t actions warnings timeline := by
  have hlk : pyLookup (fullStrategy summary ps savings t actions warnings timeline)
      "investment_recommendations" = some (.list (ps.map mkRec)) := by
    simp [fullStrategy, pyLookup]
  have hst : validate_stage1 (fullStrategy summary ps savings t actions warnings timeline)
      = (fullStrategy summary ps savings t actions warnings timeline, true) := by
    unfold validate_stage1
    rw [hlk]
    simp only [sumAllocations_map]
    rw [if_neg (not_lt.mpr halloc)]
  unfold validate_strategy
  rw [hst]
  unfold validate_stage2
  by_cases hE0 : E = 0
  · simp [hE0]
  · rcases hfund with hE | ⟨h3, h12⟩
    · exact absurd hE hE0
    · have hT : pyLookup (fullStrategy summary ps savings t actions warnings timeline)
          "emergency_fund_target" = some (.num t) := by
        simp [fullStrategy, pyLookup]
      simp only [ne_eq, hE0, not_false_eq_true, if_true, hT, numVal]
      rw [if_neg (not_lt.mpr h3), if_neg (not_lt.mpr h12)]

/-- C3 witness: a fully valid strategy (allocations 60 and 40, target
24000 against expenses 4000) passes through the validator unchanged. -/
theorem c3_validator_idempotent_w :
    validate_strategy (fullStrategy (.str "s") [60, 40] (.num 500) 24000
        (.list []) (.list []) (.str "t")) 4000
      = fullStrategy (.str "s") [60, 40] (.num 500) 24000
          (.list []) (.list []) (.str "t") :=
  c3_validator_idempotent (.str "s") (.num 500) (.list []) (.list []) (.str "t")
    [60, 40] 24000 4000
    (by norm_num [List.sum_cons, List.sum_nil])
    (Or.inr (by norm_num))

/-
Claim C4.
-/

/-- C4: with positive monthly expenses E the validator clamps the
strategy emergency-fund target into the closed interval from 3E to 12E
(values below 3E are raised to 3E, values above 12E are lowered to 12E,
values inside are unchanged); the witness instantiates E = 4000 with the
targets 1000, 60000 and 30000 giving 12000, 48000 and 30000. -/
theorem c4_emergency_fund_clamped (E t : ℚ) (hE : 0 < E) :
    pyLookup (validate_strategy [("emergency_fund_target", PyVal.num t)] E)
        "emergency_fund_target" = some (.num (max (E * 3) (min (E * 12) t))) ∧
    E * 3 ≤ max (E * 3) (min (E * 12) t) ∧
    max (E * 3) (min (E * 12) t) ≤ E * 12 := by
  have h312 : E * 3 ≤ E * 12 := by nlinarith
  have hst : validate_stage1 [("emergency_fund_target", PyVal.num t)]
      = ([("emergency_fund_target", PyVal.num t)], true) := by
    unfold validate_stage1
    rw [show pyLookup [("emergency_fund_target", PyVal.num t)]
          "investment_recommendations" = none from rfl]
  refine ⟨?_, le_max_left _ _, max_le h312 (min_le_left _ _)⟩
  unfold validate_strategy
  rw [hst]
  unfold validate_stage2
  have hE0 : E ≠ 0 := ne_of_gt hE
  have hT : pyLookup [("emergency_fund_target", PyVal.num t)] "emergency_fund_target"
      = some (.num t) := rfl
  simp only [ne_eq, hE0, not_false_eq_true, if_true, hT, numVal]
  by_cases h1 : t < E * 3
  · rw [if_pos h1, min_eq_right (h1.le.trans h312), max_eq_left h1.le,
      pyLookup_pySet_self]
  · rw [if_neg h1]
    by_cases h2 : E * 12 < t
    · rw [if_pos h2, min_eq_left h2.le, max_eq_right h312, pyLookup_pySet_self]
    · rw [if_neg h2, min_eq_right (not_lt.mp h2), max_eq_right (not_lt.mp h1)]
      exact hT

/-- C4 witness: at monthly expenses 4000 the extracted targets 1000,
60000 and 30000 come out as 12000, 48000 and 30000. -/
theorem c4_emergency_fund_clamped_w :
    pyLookup (validate_strategy [("emergency_fund_target", PyVal.num 1000)] 4000)
        "emergency_fund_target" = some (.num 12000) ∧
    pyLookup (validate_strategy [("emergency_fund_target", PyVal.num 60000)] 4000)
        "emergency_fund_target" = some (.num 48000) ∧
    pyLookup (validate_strategy [("emergency_fund_target", PyVal.num 30000)] 4000)
        "emergency_fund_target" = some (.num 30000) := by
  refine ⟨?_, ?_, ?_⟩
  · have h := (c4_emergency_fund_clamped 4000 1000 (by norm_num)).1
    norm_num [min_def, max_def] at h
    exact h
  · have h := (c4_emergency_fund_clamped 4000 60000 (by norm_num)).1
    norm_num [min_def, max_def] at h
    exact h
  · have h := (c4_emergency_fund_clamped 4000 30000 (by norm_num)).1
    norm_num [min_def, max_def] at h
    exact h

/-- rounding to one decimal place is the identity on exact tenths. -/
theorem round1_of_int (n : ℤ) : round1 ((n : ℚ) / 10) = (n : ℚ) / 10 := by
  unfold round1 roundHalfEven
  have h1 : ((n : ℚ) / 10) * 10 = (n : ℚ) := by field_simp
  rw [h1, Int.floor_intCast]
  norm_num

/-
Claim C5.
-/

/-- C5: the fallback strategy synthesizer is deterministic (a pure
function of the profile), and on the profile with age 35, moderate risk,
annual income 75000 and monthly expenses 4000 it produces stock
allocation 62.5 and bond allocation 37.5 (summing to exactly 100),
monthly savings target 937.5 = 0.15 x 75000 / 12, and emergency fund
target 24000 = 6 x 4000 (18000 = 6 x 3000 when expenses are unknown). -/
theorem c5_fallback_strategy_values :
    generate_fallback_strategy profile35 = generate_fallback_strategy profile35 ∧
    getAllocs (generate_fallback_strategy profile35) = some [125/2, 75/2] ∧
    ([(125 : ℚ)/2, 75/2]).sum = 100 ∧
    pyLookup (generate_fallback_strategy profile35) "monthly_savings_target"
      = some (.num (1875/2)) ∧
    pyLookup (generate_fallback_strategy profile35) "emergency_fund_target"
      = some (.num 24000) ∧
    pyLookup (generate_fallback_strategy { profile35 with monthly_expenses := 0 })
        "emergency_fund_target" = some (.num 18000) := by
  have ha : round1 ((125 : ℚ)/2) = 125/2 := by
    have h := round1_of_int 625
    norm_num at h
    convert h using 2
  have hb : round1 ((75 : ℚ)/2) = 75/2 := by
    have h := round1_of_int 375
    norm_num at h
    convert h using 2
  refine ⟨rfl, ?_, ?_, ?_, ?_, ?_⟩
  · simp [generate_fallback_strategy, profile35, getAllocs, pyLookup, allocsOfRecs,
      allocOf, RiskLevel.value, max_def, min_def]
    norm_num [ha, hb]
  · norm_num [List.sum_cons, List.sum_nil]
  · simp [generate_fallback_strategy, profile35, pyLookup]
    norm_num
  · simp [generate_fallback_strategy, profile35, pyLookup]
    norm_num
  · simp [generate_fallback_strategy, profile35, pyLookup]
    norm_num

/-
Claim C6.
-/

/-- C6 counterexample: a completion that is valid JSON with
overall_risk_score 1.5 and confidence_score 2.0 is returned verbatim by
the risk pipeline, both scores outside the closed interval from 0 to 1 —
refuting the claim that every documented score field is clamped into
that interval by the pipeline. -/
theorem c6_scores_not_clamped_cex :
    pyAttr (assess_financial_risk (.dict [])
        "\x7b\"overall_risk_score\": 1.5, \"confidence_score\": 2.0\x7d")
      "overall_risk_score" = some (.num (3/2)) ∧
    pyAttr (assess_financial_risk (.dict [])
        "\x7b\"overall_risk_score\": 1.5, \"confidence_score\": 2.0\x7d")
      "confidence_score" = some (.num 2) ∧
    ¬ ((3 : ℚ)/2 ≤ 1) := by
  have e1 : ratOfDigits ['1'] ['5'] = 3/2 := by
    unfold ratOfDigits
    rw [show digitsToNat ['1'] = 1 from rfl, show digitsToNat ['5'] = 5 from rfl]
    norm_num
  have e2 : ratOfDigits ['2'] ['0'] = 2 := by
    unfold ratOfDigits
    rw [show digitsToNat ['2'] = 2 from rfl, show digitsToNat ['0'] = 0 from rfl]
    norm_num
  refine ⟨?_, ?_, by norm_num⟩
  · rw [show pyAttr (assess_financial_risk (.dict [])
          "\x7b\"overall_risk_score\": 1.5, \"confidence_score\": 2.0\x7d")
        "overall_risk_score" = some (.num (ratOfDigits ['1'] ['5'])) from rfl, e1]
  · rw [show pyAttr (assess_financial_risk (.dict [])
          "\x7b\"overall_risk_score\": 1.5, \"confidence_score\": 2.0\x7d")
        "confidence_score" = some (.num (ratOfDigits ['2'] ['0'])) from rfl, e2]

/-- C6 (amended): only the confidence score produced by the compliance
fallback extractor is kept inside the closed interval from 0 to 1: the
extracted value is nonnegative by the shape of the decimal pattern, the
stored value is its minimum with 1.0, so 0 and 1 and every interior
value pass through unchanged and larger values clamp to 1; scores
arriving through a successful strict JSON parse are returned unclamped. -/
theorem c6_fallback_confidence_clamped (text : String) :
    0 ≤ extractedConfidence text ∧
    pyLookup (parse_fallback_response text) "confidence_score"
      = some (.num (min (extractedConfidence text) 1)) ∧
    0 ≤ min (extractedConfidence text) 1 ∧
    min (extractedConfidence text) 1 ≤ 1 ∧
    (extractedConfidence text ≤ 1 →
      min (extractedConfidence text) 1 = extractedConfidence text) := by
  have h0 := extractedConfidence_nonneg text
  refine ⟨h0, ?_, le_min h0 zero_le_one, min_le_right _ _, fun h => min_eq_left h⟩
  simp [parse_fallback_response, pyLookup]

/-- C6 witness: on a text carrying confidence_score 0.3 the stored
confidence equals the extracted interior value and lies inside the
interval. -/
theorem c6_fallback_confidence_clamped_w :
    0 ≤ extractedConfidence "confidence_score: 0.3" ∧
    pyLookup (parse_fallback_response "confidence_score: 0.3") "confidence_score"
      = some (.num (min (extractedConfidence "confidence_score: 0.3") 1)) ∧
    0 ≤ min (extractedConfidence "confidence_score: 0.3") 1 ∧
    min (extractedConfidence "confidence_score: 0.3") 1 ≤ 1 ∧
    (extractedConfidence "confidence_score: 0.3" ≤ 1 →
      min (extractedConfidence "confidence_score: 0.3") 1
        = extractedConfidence "confidence_score: 0.3") :=
  c6_fallback_confidence_clamped "confidence_score: 0.3"

/-
Claim C7.
-/

/-- C7 counterexample: on the scenario text the risk pipeline returns
confidence score 0.7, the fixed fallback value, not the 0.8 the claim
says is extracted from the text — the risk path has no pattern-based
extraction at all. -/
theorem c7_scenario_confidence_cex :
    pyAttr (assess_financial_risk (.dict []) scenarioRiskText) "confidence_score"
      = some (.num (7/10)) ∧
    ¬ ((7 : ℚ)/10 = 8/10) :=
  ⟨rfl, by norm_num⟩

/-- C7 (amended): on the malformed scenario text the pipeline returns,
without error, exactly the fixed fallback RiskAssessment: risk level
moderate, confidence score 0.7, overall risk score 0.5 defaulted, and
the single fixed Market Volatility risk factor; nothing is extracted
from the text. -/
theorem c7_scenario_fixed_fallback :
    assess_financial_risk (.dict []) scenarioRiskText
      = .dict generate_fallback_risk_assessment ∧
    pyAttr (assess_financial_risk (.dict []) scenarioRiskText) "risk_level"
      = some (.str "moderate") ∧
    pyAttr (assess_financial_risk (.dict []) scenarioRiskText) "overall_risk_score"
      = some (.num (1/2)) :=
  ⟨rfl, rfl, rfl⟩

/-
Claim C8.
-/

/-- C8: whenever the completion text fails the strict JSON parse, the
risk pipeline returns exactly the fixed fallback assessment — one risk
factor named Market Volatility with severity medium and impact score
0.6, overall risk score 0.5, risk level moderate, confidence score 0.7 —
independent of the input financial data. -/
theorem c8_fallback_risk_fixed (financial_data : PyVal) (text : String)
    (h : jsonLoads (pyStrip text) = none) :
    assess_financial_risk financial_data text = .dict
      [("overall_risk_score", .num (1/2)),
       ("risk_level", .str "moderate"),
       ("risk_factors", .list
          [.dict
            [("factor_name", .str "Market Volatility"),
             ("severity", .str "medium"),
             ("impact_score", .num (6/10)),
             ("mitigation_strategies", .list
                [.str "Diversification", .str "Dollar-cost averaging"])]]),
       ("recommendations", .list
          [.str "Maintain diversified portfolio", .str "Regular risk assessment"]),
       ("confidence_score", .num (7/10))] := by
  simp [assess_financial_risk, h, generate_fallback_risk_assessment]

/-- C8 witness: two different financial-data inputs with the same
unparseable completion both give the fixed fallback assessment. -/
theorem c8_fallback_risk_fixed_w :
    assess_financial_risk (.dict [("income", .num 1)]) "not json" = .dict
      [("overall_risk_score", .num (1/2)),
       ("risk_level", .str "moderate"),
       ("risk_factors", .list
          [.dict
            [("factor_name", .str "Market Volatility"),
             ("severity", .str "medium"),
             ("impact_score", .num (6/10)),
             ("mitigation_strategies", .list
                [.str "Diversification", .str "Dollar-cost averaging"])]]),
       ("recommendations", .list
          [.str "Maintain diversified portfolio", .str "Regular risk assessment"]),
       ("confidence_score", .num (7/10))] :=
  c8_fallback_risk_fixed (.dict [("income", .num 1)]) "not json" rfl

/-
Claim C9.
-/

/-- C9 counterexample: a non-JSON completion carrying the quoted word
banana after compliance_status makes the fallback extractor store
compliance_status banana, which is not one of the three ComplianceStatus
enum values — refuting the claimed enum invariant for every raw input
text. -/
theorem c9_status_enum_cex :
    pyAttr (analyze_compliance bananaText) "compliance_status"
      = some (.str "banana") ∧
    ¬ "banana" ∈ complianceEnum :=
  ⟨rfl, by decide⟩

/-- C9 (amended): the compliance_status of the produced result is
guaranteed to be an enum value on the paths that do not copy words from
the input: when the strict parse fails and the status pattern finds no
match the fallback stores needs_review, and the upstream-error default
also carries needs_review; when the pattern matches, the stored status
is whatever word the text supplies and can lie outside the enum. -/
theorem c9_status_default_enum (text : String)
    (h1 : jsonLoads (pyStrip text) = none) (h2 : searchStatus text.data = none) :
    pyAttr (analyze_compliance text) "compliance_status"
      = some (.str "needs_review") ∧
    "needs_review" ∈ complianceEnum ∧
    pyAttr analyze_compliance_error_default "compliance_status"
      = some (.str "needs_review") := by
  refine ⟨?_, by decide, rfl⟩
  simp [analyze_compliance, h1, parse_fallback_response, extractedStatus, h2,
    pyAttr, pyLookup]

/-- C9 witness: the completion hello is not JSON and has no status
pattern, and its result stores needs_review. -/
theorem c9_status_default_enum_w :
    pyAttr (analyze_compliance "hello") "compliance_status"
      = some (.str "needs_review") ∧
    "needs_review" ∈ complianceEnum ∧
    pyAttr analyze_compliance_error_default "compliance_status"
      = some (.str "needs_review") :=
  c9_status_default_enum "hello" rfl rfl

/-
Claim C10.
-/

/-- C10 (amended): the validator never raises and modifies at most the
allocation_percentage entries inside investment_recommendations and the
emergency_fund_target field — every other top-level key keeps its value
and every recommendation keeps all its other fields; but when an
internal step fails mid-way the mapping is returned in the partially
rescaled state the failure left it, not necessarily unchanged. -/
theorem c10_validator_frame (s : List (String × PyVal)) (E : ℚ) :
    (∀ q : String, q ≠ "investment_recommendations" → q ≠ "emergency_fund_target" →
        pyLookup (validate_strategy s E) q = pyLookup s q) ∧
    (∀ recs : List PyVal,
        pyLookup s "investment_recommendations" = some (.list recs) →
        ∃ recs2 : List PyVal,
          pyLookup (validate_strategy s E) "investment_recommendations"
            = some (.list recs2) ∧
          recs2.map eraseAlloc = recs.map eraseAlloc) := by
  constructor
  · intro q hq1 hq2
    unfold validate_strategy
    cases hst : validate_stage1 s with
    | mk s1 ok =>
      have h1 : pyLookup s1 q = pyLookup s q := by
        have h2 := validate_stage1_lookup_ne s q hq1
        rw [hst] at h2
        exact h2
      cases ok with
      | false => exact h1
      | true =>
        rw [validate_stage2_lookup_ne s1 E q hq2]
        exact h1
  · intro recs hrecs
    obtain ⟨recs2, hl2, herase⟩ := validate_stage1_recs s recs hrecs
    refine ⟨recs2, ?_, herase⟩
    unfold validate_strategy
    cases hst : validate_stage1 s with
    | mk s1 ok =>
      rw [hst] at hl2
      cases ok with
      | false => exact hl2
      | true =>
        rw [validate_stage2_lookup_ne s1 E "investment_recommendations" (by decide)]
        exact hl2

/-- C10 witness: on the mapping with a gap the untouched key
strategy_summary keeps its value through validation. -/
theorem c10_validator_frame_w :
    pyLookup (validate_strategy strategyWithGap 0) "strategy_summary"
      = pyLookup strategyWithGap "strategy_summary" :=
  (c10_validator_frame strategyWithGap 0).1 "strategy_summary" (by decide) (by decide)

/-- C10 counterexample: on the mapping whose second recommendation lacks
allocation_percentage, the rescaling loop raises after rescaling the
first recommendation from 50 to 100, and the validator returns the
partially mutated mapping — refuting the part of the claim that an
internal failure returns the entire input mapping unchanged. -/
theorem c10_partial_mutation_cex :
    firstAlloc (validate_strategy strategyWithGap 0) = some 100 ∧
    firstAlloc strategyWithGap = some 50 ∧
    validate_strategy strategyWithGap 0 ≠ strategyWithGap := by
  have habs : |(50 : ℚ) - 100| = 50 := by
    rw [abs_of_nonpos (by norm_num)]
    norm_num
  have hsum : sumAllocations
      [PyVal.dict [("allocation_percentage", PyVal.num 50)],
       PyVal.dict [("asset_class", PyVal.str "Bonds")]] = some 50 := by
    rw [show sumAllocations
        [PyVal.dict [("allocation_percentage", PyVal.num 50)],
         PyVal.dict [("asset_class", PyVal.str "Bonds")]]
        = some ((50 : ℚ) + (0 + 0)) from rfl]
    norm_num
  have hscale : scaleRecs (100/50)
      [PyVal.dict [("allocation_percentage", PyVal.num 50)],
       PyVal.dict [("asset_class", PyVal.str "Bonds")]]
      = ([PyVal.dict [("allocation_percentage", PyVal.num 100)],
          PyVal.dict [("asset_class", PyVal.str "Bonds")]], false) := by
    have hm : (50 : ℚ) * (100/50) = 100 := by norm_num
    simp [scaleRecs, pyLookup, numVal, pySet, hm]
  have hst1 : validate_stage1 strategyWithGap
      = (pySet strategyWithGap "investment_recommendations"
          (.list [.dict [("allocation_percentage", .num 100)],
                  .dict [("asset_class", .str "Bonds")]]), false) := by
    unfold validate_stage1
    rw [show pyLookup strategyWithGap "investment_recommendations"
          = some (.list [.dict [("allocation_percentage", PyVal.num 50)],
                         .dict [("asset_class", PyVal.str "Bonds")]]) from rfl]
    simp only [hsum, habs]
    rw [if_pos (by norm_num : (1 : ℚ) < 50)]
    rw [if_pos (by norm_num : (0 : ℚ) < 50)]
    rw [hscale]
  have hst : validate_strategy strategyWithGap 0
      = pySet strategyWithGap "investment_recommendations"
          (.list [.dict [("allocation_percentage", .num 100)],
                  .dict [("asset_class", .str "Bonds")]]) := by
    unfold validate_strategy
    rw [hst1]
  refine ⟨by rw [hst]; rfl, rfl, ?_⟩
  intro hcontr
  have h2 := congrArg firstAlloc hcontr
  rw [hst] at h2
  rw [show firstAlloc (pySet strategyWithGap "investment_recommendations"
        (.list [.dict [("allocation_percentage", PyVal.num 100)],
                .dict [("asset_class", PyVal.str "Bonds")]])) = some 100 from rfl,
      show firstAlloc strategyWithGap = some 50 from rfl] at h2
  exact absurd (Option.some.inj h2) (by norm_num)
